import Mathlib

/-!
Verification of the batching producer in
`src/async_kinesis_client/kinesis_producer.py`.

The producer is embedded shallowly: its mutable instance state
(`self.seq`, `self.record_buf`, `self.buf_size`, together with the
construction-time `stream_name` and `ordered` flag) becomes the structure
`ProducerState`; each method becomes a pure function from the state (and an
explicit endpoint oracle for the `aioboto3` kinesis client calls) to the
result and the new state.  The endpoint oracle returns `Except`, so a failing
remote call (a raised exception in Python) is the `Except.error` branch and
the Python exception propagation is modelled by returning the error together
with the state as it stood at the raise point.  Each batch-endpoint call made
during an operation is also recorded in an explicit trace (the list of
batches passed to `put_records` on the kinesis client), and `put_record`
returns the request dictionary it passed to the client, so that claims about
what was submitted can be stated.
-/

namespace AsyncKinesisClient

/-- Source line 13: `MAX_RECORDS_IN_BATCH = 500`. -/
def MAX_RECORDS_IN_BATCH : Nat := 500

/-- Source line 14: `MAX_RECORD_SIZE = 1024 * 1024`. -/
def MAX_RECORD_SIZE : Nat := 1024 * 1024

/-- Source line 15: `MAX_BATCH_SIZE = 5 * MAX_RECORD_SIZE`. -/
def MAX_BATCH_SIZE : Nat := 5 * MAX_RECORD_SIZE

/-- A record payload: Python `bytes`, embedded as a list of byte values. -/
abbrev Bytes := List Nat

/-- One buffered entry (the Python dict built at source lines 99-106): it
carries either an `ExplicitHashKey` or a `PartitionKey`, plus the `Data`
payload. -/
structure Datum where
  explicitHashKey : Option String := none
  partitionKey : Option String := none
  data : Bytes
  deriving Repr, DecidableEq

/-- Python truthiness of an optional string argument (`if explicit_hash_key:`,
`partition_key or ...`): `None` and the empty string are falsy. -/
def pyTruthy : Option String → Bool
  | none => false
  | some s => !(s == "")

/-- Python `a or b` for an optional string `a` with default `b`. -/
def pyOr (a : Option String) (b : String) : String :=
  match a with
  | none => b
  | some s => if s == "" then b else s

/-- Modelled from the spec: the helper `_sizeof` (imported at source line 6
from `src/async_kinesis_client/utils.py`, a file absent from the source tree)
applied to a bare record.  Spec §3: a record's size is its payload length. -/
def _sizeof (r : Bytes) : Nat := r.length

/-- Byte size contributed by an optional key string. -/
def keySize : Option String → Nat
  | none => 0
  | some k => k.length

/-- Modelled from the spec: `_sizeof` applied to a buffered datum dict.
Spec §3: "Size is the sum of payload length and key length". -/
def _sizeof_datum (d : Datum) : Nat :=
  keySize d.explicitHashKey + keySize d.partitionKey + d.data.length

/-- The mutable state of an `AsyncKinesisProducer` instance
(source lines 24-32). -/
structure ProducerState where
  stream_name : String
  ordered : Bool
  seq : String
  record_buf : List Datum
  buf_size : Nat
  deriving Repr, DecidableEq

namespace AsyncKinesisProducer

/-- `AsyncKinesisProducer.__init__` (source lines 24-32): fresh state with
sentinel sequence number `'0'`, empty buffer, zero size. -/
def init (stream_name : String) (ordered : Bool := true) : ProducerState :=
  { stream_name := stream_name
    ordered := ordered
    seq := "0"
    record_buf := []
    buf_size := 0 }

/-- The request dictionary (`kwargs`) built by `put_record`
(source lines 52-63). -/
structure PutRecordReq where
  StreamName : String
  Data : Bytes
  PartitionKey : String
  SequenceNumberForOrdering : Option String := none
  ExplicitHashKey : Option String := none
  deriving Repr, DecidableEq

/-- The part of the endpoint's `put_record` response the producer reads
(source line 67): its `SequenceNumber` field. -/
structure PutRecordResp where
  SequenceNumber : String
  deriving Repr, DecidableEq

/-- The `kwargs` dictionary assembled by `put_record` (source lines 49-63):
a `None` partition key is first replaced by a generated default (`dk1`,
line 50); the `SequenceNumberForOrdering` entry is present only when
`ordered` (lines 58-59); the `PartitionKey` entry is then overwritten with
`partition_key or _get_default_partition_key()` (line 61, second possible
generated key `dk2`); the `ExplicitHashKey` entry is present only when
truthy (lines 62-63). -/
def mkPutReq (record : Bytes) (partition_key explicit_hash_key : Option String)
    (dk1 dk2 : String) (s : ProducerState) : PutRecordReq :=
  let pk0 : String :=
    match partition_key with
    | none => dk1
    | some k => k
  { StreamName := s.stream_name
    Data := record
    PartitionKey := pyOr (some pk0) dk2
    SequenceNumberForOrdering := if s.ordered then some s.seq else none
    ExplicitHashKey := if pyTruthy explicit_hash_key then explicit_hash_key else none }

/-- `AsyncKinesisProducer.put_record` (source lines 40-68).

`ep` is the remote endpoint (`self.kinesis_client.put_record`); `dk1` and
`dk2` are the values the two possible `_get_default_partition_key()` calls
(source lines 50 and 61) would return, passed in as oracles since the Python
key is derived from wall-clock time.  Returns the endpoint outcome, the new
state, and the request that was passed to the endpoint. -/
def put_record {E : Type} (ep : PutRecordReq → Except E PutRecordResp)
    (record : Bytes) (partition_key explicit_hash_key : Option String)
    (dk1 dk2 : String) (s : ProducerState) :
    Except E PutRecordResp × ProducerState × PutRecordReq :=
  let req : PutRecordReq := mkPutReq record partition_key explicit_hash_key dk1 dk2 s
  match ep req with
  | Except.error e => (Except.error e, s, req)
  | Except.ok resp =>
      (Except.ok resp,
       if s.ordered then { s with seq := resp.SequenceNumber } else s,
       req)

/-- `AsyncKinesisProducer.flush` (source lines 118-129).

`ep` is the remote batch endpoint (`self.kinesis_client.put_records`);
its argument is the buffered record list.  Returns the outcome (`none`
standing for Python's implicit `None` return on an empty buffer), the new
state, and the trace of batches submitted to the endpoint during the call. -/
def flush {E R : Type} (ep : List Datum → Except E R) (s : ProducerState) :
    Except E (Option R) × ProducerState × List (List Datum) :=
  if s.record_buf.length = 0 then (Except.ok none, s, [])
  else
    match ep s.record_buf with
    | Except.error e => (Except.error e, s, [s.record_buf])
    | Except.ok r =>
        (Except.ok (some r), { s with record_buf := [], buf_size := 0 },
         [s.record_buf])

/-- The datum dict built for one record inside `put_records`
(source lines 99-106): an `ExplicitHashKey` entry when `explicit_hash_key`
is truthy, otherwise a `PartitionKey` entry holding
`partition_key or _get_default_partition_key()` (`dk` is that freshly
generated per-item default key). -/
def mkDatum (explicit_hash_key partition_key : Option String) (dk : String)
    (r : Bytes) : Datum :=
  if pyTruthy explicit_hash_key then
    { explicitHashKey := explicit_hash_key, data := r }
  else
    { partitionKey := some (pyOr partition_key dk), data := r }

/-- The error raised out of `put_records`: either the `ValueError` of source
lines 95-97 (carrying the 1-based record counter `n`, the limit, the actual
size and the record) or an exception propagated from an endpoint call. -/
inductive PutError (E : Type) where
  | valueError (n : Nat) (limit : Nat) (size : Nat) (record : Bytes)
  | endpoint (e : E)
  deriving Repr

/-- The `for r in records:` loop of `AsyncKinesisProducer.put_records`
(source lines 84-116), one iteration per head record.

State threaded through: the 1-based record counter `n`, the accumulated
response list `resp`, the trace `tr` of batches submitted to the endpoint so
far, and the producer state `s`.  Per iteration, matching the source order:
flush when the buffer already holds `MAX_RECORDS_IN_BATCH` entries
(lines 88-89), raise `ValueError` on an oversized record (lines 95-97),
build the datum (lines 99-106), flush when adding its size would exceed
`MAX_BATCH_SIZE` (lines 109-110), then append the datum and add its size
(lines 112-113).  An error is returned together with the state at the raise
point, since the Python exception leaves `self` as it stood. -/
def put_records_loop {E R : Type} (ep : List Datum → Except E R)
    (partition_key explicit_hash_key : Option String) (keygen : Nat → String) :
    List Bytes → Nat → List (Option R) → List (List Datum) → ProducerState →
      Except (PutError E) (List (Option R)) × ProducerState × List (List Datum)
  | [], _, resp, tr, s => (Except.ok resp, s, tr)
  | r :: rest, n, resp, tr, s =>
    match (if s.record_buf.length = MAX_RECORDS_IN_BATCH then
             match flush ep s with
             | (Except.error e, s1, t) => (Except.error e, s1, tr ++ t)
             | (Except.ok fr, s1, t) => (Except.ok (resp ++ [fr]), s1, tr ++ t)
           else
             ((Except.ok resp : Except E (List (Option R))), s, tr)) with
    | (Except.error e, s1, t1) => (Except.error (PutError.endpoint e), s1, t1)
    | (Except.ok resp1, s1, t1) =>
      if MAX_RECORD_SIZE < _sizeof r then
        (Except.error (PutError.valueError n MAX_RECORD_SIZE (_sizeof r) r), s1, t1)
      else
        let datum := mkDatum explicit_hash_key partition_key (keygen n) r
        let datum_size := _sizeof_datum datum
        match (if MAX_BATCH_SIZE < s1.buf_size + datum_size then
                 match flush ep s1 with
                 | (Except.error e, s2, t) => (Except.error e, s2, t1 ++ t)
                 | (Except.ok fr, s2, t) => (Except.ok (resp1 ++ [fr]), s2, t1 ++ t)
               else
                 ((Except.ok resp1 : Except E (List (Option R))), s1, t1)) with
        | (Except.error e, s2, t2) => (Except.error (PutError.endpoint e), s2, t2)
        | (Except.ok resp2, s2, t2) =>
          put_records_loop ep partition_key explicit_hash_key keygen rest (n + 1)
            resp2 t2
            { s2 with record_buf := s2.record_buf ++ [datum],
                      buf_size := s2.buf_size + datum_size }

/-- `AsyncKinesisProducer.put_records` (source lines 70-116): run the loop
from `resp = []`, `n = 1`.  `keygen n` is the value
`_get_default_partition_key()` would return while processing the `n`-th
record, passed in as an oracle. -/
def put_records {E R : Type} (ep : List Datum → Except E R)
    (partition_key explicit_hash_key : Option String) (keygen : Nat → String)
    (records : List Bytes) (s : ProducerState) :
    Except (PutError E) (List (Option R)) × ProducerState × List (List Datum) :=
  put_records_loop ep partition_key explicit_hash_key keygen records 1 [] [] s

/-- An always-succeeding batch endpoint: every call returns `Except.ok` with
a response computed by `f` from the submitted batch.  This is how "assuming
every endpoint call succeeds" is instantiated. -/
def okEp {R : Type} (f : List Datum → R) : List Datum → Except String R :=
  fun b => Except.ok (f b)

/-- The state after the buffer reset of source lines 127-128. -/
def clearBuf (s : ProducerState) : ProducerState :=
  { s with record_buf := [], buf_size := 0 }

/-- The state after the datum append of source lines 112-113. -/
def addDatum (s : ProducerState) (d : Datum) : ProducerState :=
  { s with record_buf := s.record_buf ++ [d],
           buf_size := s.buf_size + _sizeof_datum d }

/-- The producer state after the record-count check of source lines 88-89
under a succeeding endpoint: the buffer is cleared exactly when it already
held `MAX_RECORDS_IN_BATCH` entries. -/
def countFlushState (s : ProducerState) : ProducerState :=
  if s.record_buf.length = MAX_RECORDS_IN_BATCH then clearBuf s else s

/-- The batches submitted to the endpoint by the record-count check of source
lines 88-89. -/
def countFlushTrace (s : ProducerState) : List (List Datum) :=
  if s.record_buf.length = MAX_RECORDS_IN_BATCH then [s.record_buf] else []

/-- The responses appended to the result list by the record-count check of
source lines 88-89 under the endpoint `okEp f`. -/
def countFlushResp {R : Type} (f : List Datum → R) (s : ProducerState) :
    List (Option R) :=
  if s.record_buf.length = MAX_RECORDS_IN_BATCH then [some (f s.record_buf)] else []

/-- The producer state after the batch-size check of source lines 109-110
under a succeeding endpoint, for an incoming datum of size `dsz`: the buffer
is cleared exactly when it was non-empty and adding `dsz` would exceed
`MAX_BATCH_SIZE` (a triggered flush on an already-empty buffer is a no-op). -/
def sizeFlushState (dsz : Nat) (s : ProducerState) : ProducerState :=
  if MAX_BATCH_SIZE < s.buf_size + dsz then
    (if s.record_buf.length = 0 then s else clearBuf s)
  else s

/-- The batches submitted to the endpoint by the batch-size check of source
lines 109-110. -/
def sizeFlushTrace (dsz : Nat) (s : ProducerState) : List (List Datum) :=
  if MAX_BATCH_SIZE < s.buf_size + dsz then
    (if s.record_buf.length = 0 then [] else [s.record_buf])
  else []

/-- The responses appended to the result list by the batch-size check of
source lines 109-110 under the endpoint `okEp f` (a flush of an empty buffer
returns Python `None`, appended as `none`). -/
def sizeFlushResp {R : Type} (f : List Datum → R) (dsz : Nat) (s : ProducerState) :
    List (Option R) :=
  if MAX_BATCH_SIZE < s.buf_size + dsz then
    [if s.record_buf.length = 0 then none else some (f s.record_buf)]
  else []

/-- The payloads currently buffered, in order. -/
def bufData (s : ProducerState) : List Bytes :=
  s.record_buf.map Datum.data

/-- The payloads submitted across a trace of endpoint batches, in order. -/
def traceData (tr : List (List Datum)) : List Bytes :=
  (tr.map (fun b => b.map Datum.data)).flatten

/-- The state invariant of spec §3: `buf_size` is the sum of the sizes of the
buffered entries, the buffer holds at most `MAX_RECORDS_IN_BATCH` entries,
and `buf_size` is at most `MAX_BATCH_SIZE`. -/
def goodState (s : ProducerState) : Prop :=
  s.buf_size = (s.record_buf.map _sizeof_datum).sum ∧
  s.record_buf.length ≤ MAX_RECORDS_IN_BATCH ∧
  s.buf_size ≤ MAX_BATCH_SIZE

/-- The first two clauses of the state invariant on their own: `buf_size` is
the sum of the sizes of the buffered entries and the buffer holds at most
`MAX_RECORDS_IN_BATCH` entries.  Unlike the 5 MiB bound, these hold with no
assumption on the sizes of the datums built during a call. -/
def sumCountInv (s : ProducerState) : Prop :=
  s.buf_size = (s.record_buf.map _sizeof_datum).sum ∧
  s.record_buf.length ≤ MAX_RECORDS_IN_BATCH

/-- One `put_records` call with its per-call arguments, for stating
properties of series of calls. -/
structure PutManyCall where
  records : List Bytes
  partition_key : Option String := none
  explicit_hash_key : Option String := none
  keygen : Nat → String

/-- A series of `put_records` calls under an always-succeeding endpoint:
returns the final state and the concatenated trace of endpoint batches.
A call that raises ends the series (the exception propagates to the
caller), as in Python. -/
def run_put_records_calls {R : Type} (f : List Datum → R) :
    List PutManyCall → ProducerState → ProducerState × List (List Datum)
  | [], s => (s, [])
  | c :: cs, s =>
    match put_records (okEp f) c.partition_key c.explicit_hash_key c.keygen
        c.records s with
    | (Except.ok _, s1, tr) =>
        let (sf, trs) := run_put_records_calls f cs s1
        (sf, tr ++ trs)
    | (Except.error _, s1, tr) => (s1, tr)

/-- A series of `put_records` calls followed by a final `flush`, under an
always-succeeding endpoint: final state and full trace of endpoint batches. -/
def run_and_flush {R : Type} (f : List Datum → R)
    (calls : List PutManyCall) (s : ProducerState) :
    ProducerState × List (List Datum) :=
  let (s1, tr1) := run_put_records_calls f calls s
  match flush (okEp f) s1 with
  | (_, s2, tr2) => (s2, tr1 ++ tr2)

/-- One `put_record` call with its per-call arguments (`dk1`, `dk2` are the
oracles for the two possible default-key generations). -/
structure PutOneCall where
  record : Bytes
  partition_key : Option String := none
  explicit_hash_key : Option String := none
  dk1 : String
  dk2 : String

/-- A series of `put_record` calls under an always-succeeding single-record
endpoint `g`: returns the requests sent, the responses received, and the
final state. -/
def run_put_record_calls (g : PutRecordReq → PutRecordResp) :
    List PutOneCall → ProducerState →
      List PutRecordReq × List PutRecordResp × ProducerState
  | [], s => ([], [], s)
  | c :: cs, s =>
    match put_record (fun q => (Except.ok (g q) : Except String PutRecordResp)) c.record c.partition_key
        c.explicit_hash_key c.dk1 c.dk2 s with
    | (_, s1, req) =>
        let (reqs, resps, sf) := run_put_record_calls g cs s1
        (req :: reqs, g req :: resps, sf)

theorem mkDatum_data (ehk pk : Option String) (dk : String) (r : Bytes) :
    (mkDatum ehk pk dk r).data = r := by
  unfold mkDatum; split <;> rfl

theorem flush_okEp {R : Type} (f : List Datum → R) (s : ProducerState) :
    flush (okEp f) s =
      (Except.ok (if s.record_buf.length = 0 then none else some (f s.record_buf)),
       (if s.record_buf.length = 0 then s else clearBuf s),
       (if s.record_buf.length = 0 then [] else [s.record_buf])) := by
  unfold flush okEp clearBuf
  split <;> simp_all

theorem loop_cons_ok {R : Type} (f : List Datum → R) (pk ehk : Option String)
    (kg : Nat → String) (r : Bytes) (rest : List Bytes) (n : Nat)
    (resp : List (Option R)) (tr : List (List Datum)) (s : ProducerState)
    (hr : ¬ MAX_RECORD_SIZE < _sizeof r) :
    put_records_loop (okEp f) pk ehk kg (r :: rest) n resp tr s =
      put_records_loop (okEp f) pk ehk kg rest (n + 1)
        (resp ++ countFlushResp f s ++
          sizeFlushResp f (_sizeof_datum (mkDatum ehk pk (kg n) r)) (countFlushState s))
        (tr ++ countFlushTrace s ++
          sizeFlushTrace (_sizeof_datum (mkDatum ehk pk (kg n) r)) (countFlushState s))
        (addDatum
          (sizeFlushState (_sizeof_datum (mkDatum ehk pk (kg n) r)) (countFlushState s))
          (mkDatum ehk pk (kg n) r)) := by
  by_cases hbe : s.record_buf = []
  · by_cases hs : MAX_BATCH_SIZE < s.buf_size + _sizeof_datum (mkDatum ehk pk (kg n) r)
    · simp [put_records_loop, flush_okEp, hbe, hr, hs, countFlushState, countFlushResp,
        countFlushTrace, sizeFlushState, sizeFlushTrace, sizeFlushResp, clearBuf, addDatum,
        MAX_RECORDS_IN_BATCH]
    · simp [put_records_loop, flush_okEp, hbe, hr, hs, countFlushState, countFlushResp,
        countFlushTrace, sizeFlushState, sizeFlushTrace, sizeFlushResp, clearBuf, addDatum,
        MAX_RECORDS_IN_BATCH]
  · by_cases hc : s.record_buf.length = 500
    · by_cases hs : MAX_BATCH_SIZE < _sizeof_datum (mkDatum ehk pk (kg n) r)
      · simp [put_records_loop, flush_okEp, hbe, hc, hr, hs, countFlushState, countFlushResp,
          countFlushTrace, sizeFlushState, sizeFlushTrace, sizeFlushResp, clearBuf, addDatum,
          MAX_RECORDS_IN_BATCH]
      · simp [put_records_loop, flush_okEp, hbe, hc, hr, hs, countFlushState, countFlushResp,
          countFlushTrace, sizeFlushState, sizeFlushTrace, sizeFlushResp, clearBuf, addDatum,
          MAX_RECORDS_IN_BATCH]
    · by_cases hs : MAX_BATCH_SIZE < s.buf_size + _sizeof_datum (mkDatum ehk pk (kg n) r)
      · simp [put_records_loop, flush_okEp, hbe, hc, hr, hs, countFlushState, countFlushResp,
          countFlushTrace, sizeFlushState, sizeFlushTrace, sizeFlushResp, clearBuf, addDatum,
          MAX_RECORDS_IN_BATCH]
      · simp [put_records_loop, flush_okEp, hbe, hc, hr, hs, countFlushState, countFlushResp,
          countFlushTrace, sizeFlushState, sizeFlushTrace, sizeFlushResp, clearBuf, addDatum,
          MAX_RECORDS_IN_BATCH]

end AsyncKinesisProducer

end AsyncKinesisClient

namespace AsyncKinesisClient

namespace AsyncKinesisProducer

theorem traceData_append (a b : List (List Datum)) :
    traceData (a ++ b) = traceData a ++ traceData b := by
  simp [traceData]

theorem countFlush_inv (s : ProducerState) :
    traceData (countFlushTrace s) ++ bufData (countFlushState s) = bufData s := by
  unfold countFlushTrace countFlushState
  split <;> simp [traceData, bufData, clearBuf]

theorem sizeFlush_inv (dsz : Nat) (s : ProducerState) :
    traceData (sizeFlushTrace dsz s) ++ bufData (sizeFlushState dsz s) = bufData s := by
  unfold sizeFlushTrace sizeFlushState
  split
  · split <;> simp [traceData, bufData, clearBuf]
  · simp [traceData]

theorem bufData_addDatum (s : ProducerState) (d : Datum) :
    bufData (addDatum s d) = bufData s ++ [d.data] := by
  simp [bufData, addDatum]

theorem loop_ok_traceData {R : Type} (f : List Datum → R) (pk ehk : Option String)
    (kg : Nat → String) :
    ∀ (records : List Bytes) (n : Nat) (resp : List (Option R))
      (tr : List (List Datum)) (s : ProducerState),
      (∀ r ∈ records, ¬ MAX_RECORD_SIZE < _sizeof r) →
      ∃ resp' s' tr',
        put_records_loop (okEp f) pk ehk kg records n resp tr s = (Except.ok resp', s', tr') ∧
        traceData tr' ++ bufData s' = traceData tr ++ bufData s ++ records
  | [], n, resp, tr, s, _ =>
    ⟨resp, s, tr, by simp [put_records_loop]⟩
  | r :: rest, n, resp, tr, s, h => by
    rw [loop_cons_ok f pk ehk kg r rest n resp tr s (h r (List.mem_cons_self r rest))]
    obtain ⟨resp', s', tr', heq, hinv⟩ :=
      loop_ok_traceData f pk ehk kg rest (n + 1)
        (resp ++ countFlushResp f s ++
          sizeFlushResp f (_sizeof_datum (mkDatum ehk pk (kg n) r)) (countFlushState s))
        (tr ++ countFlushTrace s ++
          sizeFlushTrace (_sizeof_datum (mkDatum ehk pk (kg n) r)) (countFlushState s))
        (addDatum
          (sizeFlushState (_sizeof_datum (mkDatum ehk pk (kg n) r)) (countFlushState s))
          (mkDatum ehk pk (kg n) r))
        (fun x hx => h x (List.mem_cons_of_mem r hx))
    refine ⟨resp', s', tr', heq, ?_⟩
    rw [hinv, bufData_addDatum, traceData_append, traceData_append]
    rw [mkDatum_data]
    have h1 := sizeFlush_inv (_sizeof_datum (mkDatum ehk pk (kg n) r)) (countFlushState s)
    have h2 := countFlush_inv s
    calc traceData tr ++ traceData (countFlushTrace s) ++
          traceData (sizeFlushTrace (_sizeof_datum (mkDatum ehk pk (kg n) r)) (countFlushState s)) ++
          (bufData (sizeFlushState (_sizeof_datum (mkDatum ehk pk (kg n) r)) (countFlushState s)) ++ [r]) ++ rest
        = traceData tr ++ traceData (countFlushTrace s) ++ bufData (countFlushState s) ++ ([r] ++ rest) := by
          rw [← h1]; simp [List.append_assoc]
      _ = traceData tr ++ bufData s ++ (r :: rest) := by
          rw [← h2]; simp [List.append_assoc]

end AsyncKinesisProducer

end AsyncKinesisClient

namespace AsyncKinesisClient

namespace AsyncKinesisProducer

theorem run_calls_traceData {R : Type} (f : List Datum → R) :
    ∀ (calls : List PutManyCall) (s : ProducerState),
      (∀ c ∈ calls, ∀ r ∈ c.records, ¬ MAX_RECORD_SIZE < _sizeof r) →
      traceData (run_put_records_calls f calls s).2 ++
          bufData (run_put_records_calls f calls s).1 =
        bufData s ++ (calls.map PutManyCall.records).flatten
  | [], s, _ => by simp [run_put_records_calls, traceData]
  | c :: cs, s, h => by
    obtain ⟨resp', s', tr', heq, hinv⟩ :=
      loop_ok_traceData f c.partition_key c.explicit_hash_key c.keygen c.records 1 [] [] s
        (h c (List.mem_cons_self c cs))
    have ih := run_calls_traceData f cs s' (fun x hx => h x (List.mem_cons_of_mem c hx))
    simp only [run_put_records_calls, put_records, heq]
    rcases hrun : run_put_records_calls f cs s' with ⟨sf, trs⟩
    rw [hrun] at ih
    simp only [traceData_append]
    simp only [traceData, bufData] at hinv ih ⊢
    simp at hinv
    rw [List.append_assoc, ih, ← List.append_assoc, hinv]
    simp

theorem run_and_flush_traceData {R : Type} (f : List Datum → R)
    (calls : List PutManyCall) (s : ProducerState)
    (h : ∀ c ∈ calls, ∀ r ∈ c.records, ¬ MAX_RECORD_SIZE < _sizeof r) :
    traceData (run_and_flush f calls s).2 = bufData s ++ (calls.map PutManyCall.records).flatten ∧
    (run_and_flush f calls s).1.record_buf = [] := by
  have hrc := run_calls_traceData f calls s h
  rcases hrun : run_put_records_calls f calls s with ⟨s1, tr1⟩
  rw [hrun] at hrc
  unfold run_and_flush
  simp only [hrun, flush_okEp]
  by_cases h0 : s1.record_buf.length = 0
  · have hb : s1.record_buf = [] := List.length_eq_zero.mp h0
    simp only [h0, if_pos rfl]
    simp_all [traceData, bufData]
  · simp only [if_neg h0]
    constructor
    · rw [traceData_append, ← hrc]
      simp [traceData, bufData, clearBuf]
    · simp [clearBuf]

theorem flush_error_spec {E R : Type} (ep : List Datum → Except E R)
    (s : ProducerState) (e : E) (h : s.record_buf ≠ [])
    (hf : ep s.record_buf = Except.error e) :
    flush ep s = (Except.error e, s, [s.record_buf]) := by
  have h0 : ¬ s.record_buf.length = 0 := by
    simpa [List.length_eq_zero] using h
  unfold flush
  simp [h0, hf]

theorem flush_ok_spec {E R : Type} (ep : List Datum → Except E R)
    (s : ProducerState) (r : R) (h : s.record_buf ≠ [])
    (hf : ep s.record_buf = Except.ok r) :
    flush ep s = (Except.ok (some r), clearBuf s, [s.record_buf]) := by
  have h0 : ¬ s.record_buf.length = 0 := by
    simpa [List.length_eq_zero] using h
  unfold flush clearBuf
  simp [h0, hf]

theorem loop_oversized_head {R : Type} (f : List Datum → R) (pk ehk : Option String)
    (kg : Nat → String) (bad : Bytes) (post : List Bytes) (n : Nat)
    (resp : List (Option R)) (tr : List (List Datum)) (s : ProducerState)
    (hbad : MAX_RECORD_SIZE < _sizeof bad) :
    put_records_loop (okEp f) pk ehk kg (bad :: post) n resp tr s =
      (Except.error (PutError.valueError n MAX_RECORD_SIZE (_sizeof bad) bad),
       countFlushState s, tr ++ countFlushTrace s) := by
  by_cases hc : s.record_buf.length = 500
  · simp [put_records_loop, flush_okEp, hc, hbad, countFlushState, countFlushTrace,
      clearBuf, MAX_RECORDS_IN_BATCH]
  · simp [put_records_loop, flush_okEp, hc, hbad, countFlushState, countFlushTrace,
      MAX_RECORDS_IN_BATCH]

theorem put_record_ok (g : PutRecordReq → PutRecordResp) (record : Bytes)
    (partition_key explicit_hash_key : Option String) (dk1 dk2 : String)
    (s : ProducerState) :
    put_record (fun q => (Except.ok (g q) : Except String PutRecordResp))
        record partition_key explicit_hash_key dk1 dk2 s =
      (Except.ok (g (mkPutReq record partition_key explicit_hash_key dk1 dk2 s)),
       (if s.ordered then
         { s with seq := (g (mkPutReq record partition_key explicit_hash_key dk1 dk2 s)).SequenceNumber }
        else s),
       mkPutReq record partition_key explicit_hash_key dk1 dk2 s) := by
  unfold put_record
  simp

theorem mkPutReq_token (record : Bytes) (pk ehk : Option String) (dk1 dk2 : String)
    (s : ProducerState) :
    (mkPutReq record pk ehk dk1 dk2 s).SequenceNumberForOrdering =
      (if s.ordered then some s.seq else none) := by
  unfold mkPutReq
  rfl

end AsyncKinesisProducer

end AsyncKinesisClient

namespace AsyncKinesisClient

namespace AsyncKinesisProducer

theorem run_chain_tokens (g : PutRecordReq → PutRecordResp) :
    ∀ (calls : List PutOneCall) (s : ProducerState),
      (run_put_record_calls g calls s).1.map PutRecordReq.SequenceNumberForOrdering =
        (if s.ordered then
          (some s.seq :: (run_put_record_calls g calls s).2.1.map
            (fun q => some q.SequenceNumber)).dropLast
         else List.replicate calls.length none) ∧
      (run_put_record_calls g calls s).2.2.seq =
        (if s.ordered then
          ((run_put_record_calls g calls s).2.1.map PutRecordResp.SequenceNumber).getLastD s.seq
         else s.seq)
  | [], s => by
    simp [run_put_record_calls]
  | c :: cs, s => by
    obtain ⟨nm, od, sq, rb, bs⟩ := s
    have hpr := put_record_ok g c.record c.partition_key c.explicit_hash_key c.dk1 c.dk2
      ⟨nm, od, sq, rb, bs⟩
    by_cases ho : od = true
    · subst ho
      have ih := run_chain_tokens g cs
        ⟨nm, true, (g (mkPutReq c.record c.partition_key c.explicit_hash_key c.dk1 c.dk2
          ⟨nm, true, sq, rb, bs⟩)).SequenceNumber, rb, bs⟩
      rcases hrec : run_put_record_calls g cs
          ⟨nm, true, (g (mkPutReq c.record c.partition_key c.explicit_hash_key c.dk1 c.dk2
            ⟨nm, true, sq, rb, bs⟩)).SequenceNumber, rb, bs⟩
        with ⟨reqs, resps, sf⟩
      rw [hrec] at ih
      simp only [run_put_record_calls, hpr]
      simp only [show ((⟨nm, true, sq, rb, bs⟩ : ProducerState).ordered) = true from rfl,
        if_true] at ih ⊢
      simp only [run_put_record_calls, hpr, hrec]
      refine ⟨?_, ?_⟩
      · simp only [List.map_cons, mkPutReq_token]
        simp only [show ((⟨nm, true, sq, rb, bs⟩ : ProducerState).ordered) = true from rfl,
          if_true, List.dropLast_cons₂]
        rw [ih.1]
      · simp only [List.map_cons, List.getLastD_cons]
        exact ih.2
    · have hof : od = false := by
        revert ho; cases od <;> simp
      subst hof
      have ih := run_chain_tokens g cs ⟨nm, false, sq, rb, bs⟩
      rcases hrec : run_put_record_calls g cs ⟨nm, false, sq, rb, bs⟩ with ⟨reqs, resps, sf⟩
      rw [hrec] at ih
      simp only [run_put_record_calls, hpr]
      simp only [show ((⟨nm, false, sq, rb, bs⟩ : ProducerState).ordered) = false from rfl,
        Bool.false_eq_true, if_false] at ih ⊢
      simp only [run_put_record_calls, hpr, hrec]
      refine ⟨?_, ih.2⟩
      simp only [List.map_cons, mkPutReq_token]
      simp only [show ((⟨nm, false, sq, rb, bs⟩ : ProducerState).ordered) = false from rfl,
        Bool.false_eq_true, if_false, List.replicate, List.length_cons]
      rw [ih.1]

theorem goodState_clearBuf (s : ProducerState) : goodState (clearBuf s) := by
  simp [goodState, clearBuf, MAX_RECORDS_IN_BATCH, MAX_BATCH_SIZE]

theorem goodState_of_frame (s s' : ProducerState)
    (hb : s'.record_buf = s.record_buf) (hz : s'.buf_size = s.buf_size)
    (h : goodState s) : goodState s' := by
  unfold goodState at *
  rw [hb, hz]
  exact h

theorem flush_goodState {E R : Type} (ep : List Datum → Except E R)
    (s : ProducerState) (h : goodState s) : goodState (flush ep s).2.1 := by
  unfold flush
  by_cases h0 : s.record_buf.length = 0
  · simpa [h0] using h
  · rcases hf : ep s.record_buf with e | r
    · simpa [h0, hf] using h
    · simpa [h0, hf] using goodState_clearBuf s

theorem goodState_addDatum (s : ProducerState) (d : Datum)
    (h : goodState s) (hl : s.record_buf.length < MAX_RECORDS_IN_BATCH)
    (hz : s.buf_size + _sizeof_datum d ≤ MAX_BATCH_SIZE) :
    goodState (addDatum s d) := by
  obtain ⟨h1, h2, h3⟩ := h
  refine ⟨?_, ?_, ?_⟩
  · simp [addDatum, h1]
  · simp only [addDatum, List.length_append, List.length_cons, List.length_nil]
    omega
  · simpa [addDatum] using hz

end AsyncKinesisProducer

end AsyncKinesisClient

namespace AsyncKinesisClient

namespace AsyncKinesisProducer

theorem flush_empty {E R : Type} (ep : List Datum → Except E R) (s : ProducerState)
    (h : s.record_buf = []) : flush ep s = (Except.ok none, s, []) := by
  unfold flush
  simp [h]

theorem goodState_countFlushState (s : ProducerState) (h : goodState s) :
    goodState (countFlushState s) := by
  unfold countFlushState
  split
  · exact goodState_clearBuf s
  · exact h

theorem goodState_step (s : ProducerState) (d : Datum) (hg : goodState s)
    (hd : _sizeof_datum d ≤ MAX_BATCH_SIZE) :
    goodState (addDatum (sizeFlushState (_sizeof_datum d) (countFlushState s)) d) := by
  have hcf : goodState (countFlushState s) := goodState_countFlushState s hg
  have hlen : (countFlushState s).record_buf.length < MAX_RECORDS_IN_BATCH := by
    unfold countFlushState
    split
    · simp [clearBuf, MAX_RECORDS_IN_BATCH]
    · rename_i hne
      exact Nat.lt_of_le_of_ne hg.2.1 hne
  generalize hq : countFlushState s = q at hcf hlen
  unfold sizeFlushState
  split
  · rename_i hsz
    split
    · rename_i h0
      have hz : q.buf_size = 0 := by
        have h1 := hcf.1
        rw [List.length_eq_zero.mp h0] at h1
        simpa using h1
      exact goodState_addDatum q d hcf hlen (by omega)
    · exact goodState_addDatum (clearBuf q) d (goodState_clearBuf q)
        (by rw [show (clearBuf q).record_buf.length = 0 from rfl]
            simp [MAX_RECORDS_IN_BATCH])
        (by rw [show (clearBuf q).buf_size = 0 from rfl]; omega)
  · rename_i hsz
    exact goodState_addDatum q d hcf hlen (by omega)

theorem loop_goodState {R : Type} (f : List Datum → R)
    (pk ehk : Option String) (kg : Nat → String) :
    ∀ (records : List Bytes) (n : Nat) (resp : List (Option R))
      (tr : List (List Datum)) (s : ProducerState),
      (∀ m, ∀ r ∈ records, _sizeof_datum (mkDatum ehk pk (kg m) r) ≤ MAX_BATCH_SIZE) →
      goodState s →
      goodState (put_records_loop (okEp f) pk ehk kg records n resp tr s).2.1
  | [], n, resp, tr, s, hd, hg => by simpa [put_records_loop] using hg
  | x :: rest, n, resp, tr, s, hd, hg => by
    have hd' : ∀ m, ∀ r ∈ rest, _sizeof_datum (mkDatum ehk pk (kg m) r) ≤ MAX_BATCH_SIZE :=
      fun m r hr => hd m r (List.mem_cons_of_mem x hr)
    have hdx : _sizeof_datum (mkDatum ehk pk (kg n) x) ≤ MAX_BATCH_SIZE :=
      hd n x (List.mem_cons_self x rest)
    by_cases hr : MAX_RECORD_SIZE < _sizeof x
    · rw [loop_oversized_head f pk ehk kg x rest n resp tr s hr]
      exact goodState_countFlushState s hg
    · rw [loop_cons_ok f pk ehk kg x rest n resp tr s hr]
      exact loop_goodState f pk ehk kg rest (n + 1) _ _ _ hd' (goodState_step s _ hg hdx)

theorem loop_ok_append {R : Type} (f : List Datum → R)
    (pk ehk : Option String) (kg : Nat → String) :
    ∀ (pre rest2 : List Bytes) (n : Nat) (resp : List (Option R))
      (tr : List (List Datum)) (s : ProducerState),
      (∀ r ∈ pre, ¬ MAX_RECORD_SIZE < _sizeof r) →
      ∃ resp1 s1 tr1,
        put_records_loop (okEp f) pk ehk kg pre n resp tr s = (Except.ok resp1, s1, tr1) ∧
        put_records_loop (okEp f) pk ehk kg (pre ++ rest2) n resp tr s =
          put_records_loop (okEp f) pk ehk kg rest2 (n + pre.length) resp1 tr1 s1
  | [], rest2, n, resp, tr, s, h =>
    ⟨resp, s, tr, by simp [put_records_loop], by simp [put_records_loop]⟩
  | x :: pre, rest2, n, resp, tr, s, h => by
    have hx : ¬ MAX_RECORD_SIZE < _sizeof x := h x (List.mem_cons_self x pre)
    obtain ⟨resp1, s1, tr1, h1, h2⟩ :=
      loop_ok_append f pk ehk kg pre rest2 (n + 1)
        (resp ++ countFlushResp f s ++
          sizeFlushResp f (_sizeof_datum (mkDatum ehk pk (kg n) x)) (countFlushState s))
        (tr ++ countFlushTrace s ++
          sizeFlushTrace (_sizeof_datum (mkDatum ehk pk (kg n) x)) (countFlushState s))
        (addDatum
          (sizeFlushState (_sizeof_datum (mkDatum ehk pk (kg n) x)) (countFlushState s))
          (mkDatum ehk pk (kg n) x))
        (fun q hq => h q (List.mem_cons_of_mem x hq))
    refine ⟨resp1, s1, tr1, ?_, ?_⟩
    · rw [loop_cons_ok f pk ehk kg x pre n resp tr s hx]
      exact h1
    · rw [List.cons_append, loop_cons_ok f pk ehk kg x (pre ++ rest2) n resp tr s hx, h2]
      have harith : n + 1 + pre.length = n + (x :: pre).length := by
        simp [List.length_cons]
        omega
      rw [harith]

end AsyncKinesisProducer

end AsyncKinesisClient

namespace AsyncKinesisClient

namespace AsyncKinesisProducer

theorem put_record_frame {E : Type} (ep : PutRecordReq → Except E PutRecordResp)
    (record : Bytes) (pk ehk : Option String) (dk1 dk2 : String) (s : ProducerState) :
    ((put_record ep record pk ehk dk1 dk2 s).2.1).record_buf = s.record_buf ∧
    ((put_record ep record pk ehk dk1 dk2 s).2.1).buf_size = s.buf_size := by
  unfold put_record
  rcases h : ep (mkPutReq record pk ehk dk1 dk2 s) with e | r
  · simp [h]
  · simp only [h]
    split <;> simp

theorem loop_replicate_no_flush {R : Type} (f : List Datum → R) (pk ehk : Option String)
    (kg : Nat → String) (r : Bytes) (d : Datum)
    (hd : ∀ n, mkDatum ehk pk (kg n) r = d)
    (hr : ¬ MAX_RECORD_SIZE < _sizeof r) :
    ∀ (m n : Nat) (resp : List (Option R)) (tr : List (List Datum)) (s : ProducerState),
      s.record_buf.length + m ≤ MAX_RECORDS_IN_BATCH →
      s.buf_size + m * _sizeof_datum d ≤ MAX_BATCH_SIZE →
      put_records_loop (okEp f) pk ehk kg (List.replicate m r) n resp tr s =
        (Except.ok resp,
         { s with record_buf := s.record_buf ++ List.replicate m d,
                  buf_size := s.buf_size + m * _sizeof_datum d }, tr)
  | 0, n, resp, tr, s, hl, hz => by
    simp [put_records_loop]
  | m + 1, n, resp, tr, s, hl, hz => by
    have hmul : (m + 1) * _sizeof_datum d = m * _sizeof_datum d + _sizeof_datum d := by
      rw [Nat.succ_mul]
    have hc : ¬ s.record_buf.length = MAX_RECORDS_IN_BATCH := by
      omega
    have hdsz : ¬ MAX_BATCH_SIZE < s.buf_size + _sizeof_datum d := by
      omega
    rw [List.replicate_succ, loop_cons_ok f pk ehk kg r _ n resp tr s hr]
    rw [hd n]
    simp only [countFlushResp, countFlushTrace, countFlushState, if_neg hc]
    simp only [sizeFlushResp, sizeFlushTrace, sizeFlushState, if_neg hdsz]
    simp only [List.append_nil]
    rw [loop_replicate_no_flush f pk ehk kg r d hd hr m (n + 1) resp tr (addDatum s d)
      (by simp only [addDatum, List.length_append, List.length_cons, List.length_nil]; omega)
      (by simp only [addDatum]; omega)]
    simp only [addDatum, List.append_assoc, List.singleton_append, List.replicate_succ]
    refine congrArg (fun z => (Except.ok resp, z, tr)) ?_
    refine congrArg₂ (fun a b => ProducerState.mk s.stream_name s.ordered s.seq a b) rfl ?_
    omega

end AsyncKinesisProducer

end AsyncKinesisClient

namespace AsyncKinesisClient

namespace AsyncKinesisProducer

/-- **C9**: For every producer state with an empty buffer, `flush()` performs
no endpoint call (the trace of submitted batches is empty), returns an absent
result (`none`, Python `None`), and leaves the producer state unchanged; an
empty batch is never submitted to the endpoint. -/
theorem claim_C9_empty_flush_noop {E R : Type} (ep : List Datum → Except E R)
    (s : ProducerState) (h : s.record_buf = []) :
    flush ep s = (Except.ok none, s, []) :=
  flush_empty ep s h

theorem claim_C9_empty_flush_noop_witness :
    (init "s" true).record_buf = [] ∧
    flush (okEp (fun b => b)) (init "s" true) = (Except.ok none, init "s" true, []) :=
  ⟨rfl, claim_C9_empty_flush_noop (okEp (fun b => b)) (init "s" true) rfl⟩

/-- **C10**: `put_record` never reads or modifies the batching buffer: for
every call, successful or failing, `record_buf` and `buf_size` are exactly
the same after the call as before it. -/
theorem claim_C10_put_record_buffer_frame {E : Type}
    (ep : PutRecordReq → Except E PutRecordResp) (record : Bytes)
    (pk ehk : Option String) (dk1 dk2 : String) (s : ProducerState) :
    ((put_record ep record pk ehk dk1 dk2 s).2.1).record_buf = s.record_buf ∧
    ((put_record ep record pk ehk dk1 dk2 s).2.1).buf_size = s.buf_size :=
  put_record_frame ep record pk ehk dk1 dk2 s

/-- **C3**: `flush()` on a non-empty buffer is atomic with respect to
failure: if the endpoint call raises, the error propagates and `record_buf`
and `buf_size` are left exactly as before (the whole state is unchanged);
the buffer is cleared only after the endpoint call returns successfully. -/
theorem claim_C3_flush_failure_atomic {E R : Type} (ep : List Datum → Except E R)
    (s : ProducerState) (h : s.record_buf ≠ []) :
    (∀ e : E, ep s.record_buf = Except.error e →
       flush ep s = (Except.error e, s, [s.record_buf])) ∧
    (∀ r : R, ep s.record_buf = Except.ok r →
       flush ep s = (Except.ok (some r), clearBuf s, [s.record_buf])) :=
  ⟨fun e he => flush_error_spec ep s e h he,
   fun r hrr => flush_ok_spec ep s r h hrr⟩

theorem claim_C3_flush_failure_atomic_witness :
    (ProducerState.mk "s" true "0" [Datum.mk none (some "k") [1]] 2).record_buf ≠ [] ∧
    flush (fun _ => (Except.error "boom" : Except String Nat))
        (ProducerState.mk "s" true "0" [Datum.mk none (some "k") [1]] 2) =
      (Except.error "boom",
       ProducerState.mk "s" true "0" [Datum.mk none (some "k") [1]] 2,
       [[Datum.mk none (some "k") [1]]]) :=
  ⟨by decide,
   (claim_C3_flush_failure_atomic (fun _ => (Except.error "boom" : Except String Nat))
      (ProducerState.mk "s" true "0" [Datum.mk none (some "k") [1]] 2) (by decide)).1
     "boom" rfl⟩

/-- **C5**: In `put_records`, the record-count check runs before the item's
size is computed and validated; when the buffer holds 500 entries at the
start of processing an item that then fails size validation, the
count-triggered flush has already executed and its effect (emptied buffer,
batch submitted) remains in place. -/
theorem claim_C5_count_flush_precedes_size_validation {R : Type}
    (f : List Datum → R) (pk ehk : Option String) (kg : Nat → String)
    (r : Bytes) (rest : List Bytes) (s : ProducerState)
    (hc : s.record_buf.length = MAX_RECORDS_IN_BATCH)
    (hr : MAX_RECORD_SIZE < _sizeof r) :
    put_records (okEp f) pk ehk kg (r :: rest) s =
      (Except.error (PutError.valueError 1 MAX_RECORD_SIZE (_sizeof r) r),
       clearBuf s, [s.record_buf]) := by
  unfold put_records
  rw [loop_oversized_head f pk ehk kg r rest 1 [] [] s hr]
  simp [countFlushState, countFlushTrace, hc]

theorem claim_C5_count_flush_precedes_size_validation_witness :
    (ProducerState.mk "s" true "0"
        (List.replicate 500 (Datum.mk none (some "k") [0])) 500).record_buf.length =
      MAX_RECORDS_IN_BATCH ∧
    MAX_RECORD_SIZE < _sizeof (List.replicate 1048577 0) ∧
    put_records (okEp (fun b => b)) none none (fun _ => "k")
        [List.replicate 1048577 0]
        (ProducerState.mk "s" true "0"
          (List.replicate 500 (Datum.mk none (some "k") [0])) 500) =
      (Except.error (PutError.valueError 1 MAX_RECORD_SIZE
          (_sizeof (List.replicate 1048577 0)) (List.replicate 1048577 0)),
       clearBuf (ProducerState.mk "s" true "0"
          (List.replicate 500 (Datum.mk none (some "k") [0])) 500),
       [List.replicate 500 (Datum.mk none (some "k") [0])]) :=
  ⟨by rw [show (ProducerState.mk "s" true "0"
        (List.replicate 500 (Datum.mk none (some "k") [0])) 500).record_buf.length =
        (List.replicate 500 (Datum.mk none (some "k") [0])).length from rfl,
      List.length_replicate]
      rfl,
   by rw [show _sizeof (List.replicate 1048577 (0 : Nat)) =
        (List.replicate 1048577 (0 : Nat)).length from rfl, List.length_replicate]
      decide,
   claim_C5_count_flush_precedes_size_validation (fun b => b) none none (fun _ => "k")
     (List.replicate 1048577 0) []
     (ProducerState.mk "s" true "0"
       (List.replicate 500 (Datum.mk none (some "k") [0])) 500)
     (by rw [show (ProducerState.mk "s" true "0"
          (List.replicate 500 (Datum.mk none (some "k") [0])) 500).record_buf.length =
          (List.replicate 500 (Datum.mk none (some "k") [0])).length from rfl,
        List.length_replicate]
         rfl)
     (by rw [show _sizeof (List.replicate 1048577 (0 : Nat)) =
          (List.replicate 1048577 (0 : Nat)).length from rfl, List.length_replicate]
         decide)⟩

theorem loop_size_flush_step {R : Type} (f : List Datum → R)
    (pk ehk : Option String) (kg : Nat → String) (r : Bytes) (rest : List Bytes)
    (n : Nat) (resp : List (Option R)) (tr : List (List Datum)) (s : ProducerState)
    (hr : _sizeof r ≤ MAX_RECORD_SIZE)
    (hc : s.record_buf.length ≠ MAX_RECORDS_IN_BATCH)
    (hne : s.record_buf ≠ [])
    (hsz : MAX_BATCH_SIZE < s.buf_size + _sizeof_datum (mkDatum ehk pk (kg n) r)) :
    put_records_loop (okEp f) pk ehk kg (r :: rest) n resp tr s =
      put_records_loop (okEp f) pk ehk kg rest (n + 1)
        (resp ++ [some (f s.record_buf)]) (tr ++ [s.record_buf])
        { s with record_buf := [mkDatum ehk pk (kg n) r],
                 buf_size := _sizeof_datum (mkDatum ehk pk (kg n) r) } := by
  rw [loop_cons_ok f pk ehk kg r rest n resp tr s (Nat.not_lt.mpr hr)]
  have h0 : ¬ s.record_buf.length = 0 := by
    simpa [List.length_eq_zero] using hne
  simp only [countFlushResp, countFlushTrace, countFlushState, if_neg hc,
    sizeFlushResp, sizeFlushTrace, sizeFlushState, if_pos hsz, if_neg h0,
    clearBuf, addDatum]
  simp

end AsyncKinesisProducer

end AsyncKinesisClient

namespace AsyncKinesisClient

namespace AsyncKinesisProducer

theorem mkDatum_none_none (dk : String) (r : Bytes) :
    mkDatum none none dk r = Datum.mk none (some dk) r := rfl

theorem sizeof_datum_pk (k : String) (l : Bytes) :
    _sizeof_datum (Datum.mk none (some k) l) = k.length + l.length := by
  simp [_sizeof_datum, keySize]

/-- **C7**: In `put_records`, for each item, if the buffer's running size
plus the item's datum size would exceed `MAX_BATCH_SIZE`, the (non-empty,
non-count-triggering) buffer is flushed first — the flush response is
appended to the result list and the submitted batch to the trace — and the
datum is then added alone to the now-empty buffer. -/
theorem claim_C7_size_flush_then_add {R : Type} (f : List Datum → R)
    (pk ehk : Option String) (kg : Nat → String) (r : Bytes) (rest : List Bytes)
    (n : Nat) (resp : List (Option R)) (tr : List (List Datum)) (s : ProducerState)
    (hr : _sizeof r ≤ MAX_RECORD_SIZE)
    (hc : s.record_buf.length ≠ MAX_RECORDS_IN_BATCH)
    (hne : s.record_buf ≠ [])
    (hsz : MAX_BATCH_SIZE < s.buf_size + _sizeof_datum (mkDatum ehk pk (kg n) r)) :
    put_records_loop (okEp f) pk ehk kg (r :: rest) n resp tr s =
      put_records_loop (okEp f) pk ehk kg rest (n + 1)
        (resp ++ [some (f s.record_buf)]) (tr ++ [s.record_buf])
        { s with record_buf := [mkDatum ehk pk (kg n) r],
                 buf_size := _sizeof_datum (mkDatum ehk pk (kg n) r) } :=
  loop_size_flush_step f pk ehk kg r rest n resp tr s hr hc hne hsz

theorem claim_C7_size_flush_then_add_witness :
    _sizeof (List.replicate 204799 0) ≤ MAX_RECORD_SIZE ∧
    (ProducerState.mk "s" false "0"
        (List.replicate 3 (Datum.mk none (some "p") (List.replicate 1712673 0)))
        5138022).record_buf.length ≠ MAX_RECORDS_IN_BATCH ∧
    (ProducerState.mk "s" false "0"
        (List.replicate 3 (Datum.mk none (some "p") (List.replicate 1712673 0)))
        5138022).record_buf ≠ [] ∧
    MAX_BATCH_SIZE < (ProducerState.mk "s" false "0"
        (List.replicate 3 (Datum.mk none (some "p") (List.replicate 1712673 0)))
        5138022).buf_size +
      _sizeof_datum (mkDatum none none ((fun _ : Nat => "k") 1) (List.replicate 204799 0)) ∧
    put_records_loop (okEp (fun b => b)) none none (fun _ => "k")
        [List.replicate 204799 0] 1 [] []
        (ProducerState.mk "s" false "0"
          (List.replicate 3 (Datum.mk none (some "p") (List.replicate 1712673 0)))
          5138022) =
      put_records_loop (okEp (fun b => b)) none none (fun _ => "k") [] (1 + 1)
        ([] ++ [some (List.replicate 3 (Datum.mk none (some "p") (List.replicate 1712673 0)))])
        ([] ++ [List.replicate 3 (Datum.mk none (some "p") (List.replicate 1712673 0))])
        { ProducerState.mk "s" false "0"
            (List.replicate 3 (Datum.mk none (some "p") (List.replicate 1712673 0)))
            5138022 with
          record_buf := [mkDatum none none ((fun _ : Nat => "k") 1) (List.replicate 204799 0)],
          buf_size := _sizeof_datum (mkDatum none none ((fun _ : Nat => "k") 1) (List.replicate 204799 0)) } := by
  have h1 : _sizeof (List.replicate 204799 0) ≤ MAX_RECORD_SIZE := by
    rw [show _sizeof (List.replicate 204799 (0 : Nat)) =
      (List.replicate 204799 (0 : Nat)).length from rfl, List.length_replicate]
    decide
  have h2 : (ProducerState.mk "s" false "0"
      (List.replicate 3 (Datum.mk none (some "p") (List.replicate 1712673 0)))
      5138022).record_buf.length ≠ MAX_RECORDS_IN_BATCH := by
    rw [show (ProducerState.mk "s" false "0"
      (List.replicate 3 (Datum.mk none (some "p") (List.replicate 1712673 0)))
      5138022).record_buf.length =
      (List.replicate 3 (Datum.mk none (some "p") (List.replicate 1712673 0))).length from rfl,
      List.length_replicate]
    decide
  have h3 : (ProducerState.mk "s" false "0"
      (List.replicate 3 (Datum.mk none (some "p") (List.replicate 1712673 0)))
      5138022).record_buf ≠ [] := by
    intro h
    have hq := congrArg List.length h
    rw [show (ProducerState.mk "s" false "0"
        (List.replicate 3 (Datum.mk none (some "p") (List.replicate 1712673 0)))
        5138022).record_buf =
        List.replicate 3 (Datum.mk none (some "p") (List.replicate 1712673 0)) from rfl,
      List.length_replicate, List.length_nil] at hq
    exact absurd hq (by decide)
  have h4 : MAX_BATCH_SIZE < (ProducerState.mk "s" false "0"
      (List.replicate 3 (Datum.mk none (some "p") (List.replicate 1712673 0)))
      5138022).buf_size +
      _sizeof_datum (mkDatum none none ((fun _ : Nat => "k") 1) (List.replicate 204799 0)) := by
    rw [show ((fun _ : Nat => "k") 1) = "k" from rfl, mkDatum_none_none, sizeof_datum_pk,
      List.length_replicate,
      show (ProducerState.mk "s" false "0"
        (List.replicate 3 (Datum.mk none (some "p") (List.replicate 1712673 0)))
        5138022).buf_size = 5138022 from rfl]
    decide
  exact ⟨h1, h2, h3, h4,
    claim_C7_size_flush_then_add (fun b : List Datum => b) none none (fun _ => "k")
      (List.replicate 204799 0) [] 1 [] []
      (ProducerState.mk "s" false "0"
        (List.replicate 3 (Datum.mk none (some "p") (List.replicate 1712673 0)))
        5138022) h1 h2 h3 h4⟩

end AsyncKinesisProducer

end AsyncKinesisClient

namespace AsyncKinesisClient

namespace AsyncKinesisProducer

theorem loop_append_of_ok {R : Type} (f : List Datum → R) (pk ehk : Option String)
    (kg : Nat → String) (pre rest2 : List Bytes) (n : Nat) (resp resp1 : List (Option R))
    (tr tr1 : List (List Datum)) (s s1 : ProducerState)
    (hpre : ∀ r ∈ pre, ¬ MAX_RECORD_SIZE < _sizeof r)
    (h : put_records_loop (okEp f) pk ehk kg pre n resp tr s = (Except.ok resp1, s1, tr1)) :
    put_records_loop (okEp f) pk ehk kg (pre ++ rest2) n resp tr s =
      put_records_loop (okEp f) pk ehk kg rest2 (n + pre.length) resp1 tr1 s1 := by
  obtain ⟨a, b, c, h1, h2⟩ := loop_ok_append f pk ehk kg pre rest2 n resp tr s hpre
  rw [h] at h1
  obtain ⟨ha, hb, hc⟩ : resp1 = a ∧ s1 = b ∧ tr1 = c := by
    have h3 := congrArg (fun z => z.1) h1
    have h4 := congrArg (fun z => z.2.1) h1
    have h5 := congrArg (fun z => z.2.2) h1
    simp only at h3 h4 h5
    exact ⟨Except.ok.inj h3, h4, h5⟩
  rw [h2, ha, hb, hc]

/-- The single-iteration behaviour of `put_records` on a buffer already
holding `MAX_RECORDS_IN_BATCH` entries: the count-triggered flush happens
first, then the datum starts a fresh buffer (provided its own size does not
re-trigger the batch-size flush). -/
theorem loop_count_flush_step {R : Type} (f : List Datum → R) (pk ehk : Option String)
    (kg : Nat → String) (r : Bytes) (rest : List Bytes) (n : Nat)
    (resp : List (Option R)) (tr : List (List Datum)) (s : ProducerState)
    (hr : _sizeof r ≤ MAX_RECORD_SIZE)
    (hc : s.record_buf.length = MAX_RECORDS_IN_BATCH)
    (hsz : _sizeof_datum (mkDatum ehk pk (kg n) r) ≤ MAX_BATCH_SIZE) :
    put_records_loop (okEp f) pk ehk kg (r :: rest) n resp tr s =
      put_records_loop (okEp f) pk ehk kg rest (n + 1)
        (resp ++ [some (f s.record_buf)]) (tr ++ [s.record_buf])
        { s with record_buf := [mkDatum ehk pk (kg n) r],
                 buf_size := _sizeof_datum (mkDatum ehk pk (kg n) r) } := by
  rw [loop_cons_ok f pk ehk kg r rest n resp tr s (Nat.not_lt.mpr hr)]
  have hnsz : ¬ MAX_BATCH_SIZE <
      (countFlushState s).buf_size + _sizeof_datum (mkDatum ehk pk (kg n) r) := by
    unfold countFlushState
    rw [if_pos hc]
    rw [show (clearBuf s).buf_size = 0 from rfl]
    omega
  have hnsz2 : ¬ MAX_BATCH_SIZE < _sizeof_datum (mkDatum ehk pk (kg n) r) := by
    omega
  simp only [countFlushResp, countFlushTrace, countFlushState, if_pos hc,
    sizeFlushResp, sizeFlushTrace, sizeFlushState, hnsz, if_neg hnsz,
    clearBuf, addDatum]
  simp [hnsz2]

end AsyncKinesisProducer

end AsyncKinesisClient

namespace AsyncKinesisClient

namespace AsyncKinesisProducer

theorem put_records_500_tenbyte :
    put_records (okEp (fun b : List Datum => b)) none none (fun _ => "k")
        (List.replicate 500 (List.replicate 10 0)) (init "orders" false) =
      (Except.ok [],
       ProducerState.mk "orders" false "0"
         (List.replicate 500 (Datum.mk none (some "k") (List.replicate 10 0))) 5500,
       []) := by
  have hdn : ∀ m, mkDatum none none ((fun _ : Nat => "k") m) (List.replicate 10 0) =
      Datum.mk none (some "k") (List.replicate 10 0) :=
    fun m => mkDatum_none_none "k" (List.replicate 10 0)
  have hr10 : ¬ MAX_RECORD_SIZE < _sizeof (List.replicate 10 0) := by
    rw [show _sizeof (List.replicate 10 (0 : Nat)) =
      (List.replicate 10 (0 : Nat)).length from rfl, List.length_replicate]
    decide
  have hsd : _sizeof_datum (Datum.mk none (some "k") (List.replicate 10 0)) = 11 := by
    rw [sizeof_datum_pk, List.length_replicate]
    decide
  have h500 := loop_replicate_no_flush (fun b : List Datum => b) none none (fun _ => "k")
    (List.replicate 10 0) (Datum.mk none (some "k") (List.replicate 10 0)) hdn hr10
    500 1 [] [] (init "orders" false)
    (by rw [show (init "orders" false).record_buf.length = 0 from rfl]; decide)
    (by rw [hsd, show (init "orders" false).buf_size = 0 from rfl]; decide)
  unfold put_records
  rw [h500, hsd]
  rw [show (init "orders" false).record_buf ++
      List.replicate 500 (Datum.mk none (some "k") (List.replicate 10 0)) =
      List.replicate 500 (Datum.mk none (some "k") (List.replicate 10 0)) from rfl]
  rw [show (init "orders" false).buf_size + 500 * 11 = 5500 from rfl]
  rfl

theorem put_records_501_tenbyte :
    put_records (okEp (fun b : List Datum => b)) none none (fun _ => "k")
        (List.replicate 501 (List.replicate 10 0)) (init "orders" false) =
      (Except.ok [some (List.replicate 500 (Datum.mk none (some "k") (List.replicate 10 0)))],
       ProducerState.mk "orders" false "0"
         [Datum.mk none (some "k") (List.replicate 10 0)] 11,
       [List.replicate 500 (Datum.mk none (some "k") (List.replicate 10 0))]) := by
  have hdn : ∀ m, mkDatum none none ((fun _ : Nat => "k") m) (List.replicate 10 0) =
      Datum.mk none (some "k") (List.replicate 10 0) :=
    fun m => mkDatum_none_none "k" (List.replicate 10 0)
  have hr10 : ¬ MAX_RECORD_SIZE < _sizeof (List.replicate 10 0) := by
    rw [show _sizeof (List.replicate 10 (0 : Nat)) =
      (List.replicate 10 (0 : Nat)).length from rfl, List.length_replicate]
    decide
  have hsd : _sizeof_datum (Datum.mk none (some "k") (List.replicate 10 0)) = 11 := by
    rw [sizeof_datum_pk, List.length_replicate]
    decide
  have h500 := loop_replicate_no_flush (fun b : List Datum => b) none none (fun _ => "k")
    (List.replicate 10 0) (Datum.mk none (some "k") (List.replicate 10 0)) hdn hr10
    500 1 [] [] (init "orders" false)
    (by rw [show (init "orders" false).record_buf.length = 0 from rfl]; decide)
    (by rw [hsd, show (init "orders" false).buf_size = 0 from rfl]; decide)
  have h500' : put_records_loop (okEp (fun b : List Datum => b)) none none (fun _ => "k")
      (List.replicate 500 (List.replicate 10 0)) 1 [] [] (init "orders" false) =
      (Except.ok [],
       ProducerState.mk "orders" false "0"
         (List.replicate 500 (Datum.mk none (some "k") (List.replicate 10 0))) 5500,
       []) := by
    rw [h500, hsd]
    rw [show (init "orders" false).record_buf ++
        List.replicate 500 (Datum.mk none (some "k") (List.replicate 10 0)) =
        List.replicate 500 (Datum.mk none (some "k") (List.replicate 10 0)) from rfl]
    rw [show (init "orders" false).buf_size + 500 * 11 = 5500 from rfl]
    rfl
  have hsmall : ∀ x ∈ List.replicate 500 (List.replicate 10 (0 : Nat)),
      ¬ MAX_RECORD_SIZE < _sizeof x := by
    intro x hx
    rw [List.eq_of_mem_replicate hx]
    exact hr10
  have happ := loop_append_of_ok (fun b : List Datum => b) none none (fun _ => "k")
    (List.replicate 500 (List.replicate 10 0)) [List.replicate 10 0] 1 [] []
    [] [] (init "orders" false)
    (ProducerState.mk "orders" false "0"
      (List.replicate 500 (Datum.mk none (some "k") (List.replicate 10 0))) 5500)
    hsmall h500'
  unfold put_records
  rw [show List.replicate 501 (List.replicate 10 (0 : Nat)) =
      List.replicate 500 (List.replicate 10 (0 : Nat)) ++ [List.replicate 10 0] from by
    rw [show (501 : Nat) = 500 + 1 from rfl, List.replicate_add, List.replicate_one]]
  rw [happ]
  rw [List.length_replicate]
  have hc : (ProducerState.mk "orders" false "0"
      (List.replicate 500 (Datum.mk none (some "k") (List.replicate 10 0)))
      5500).record_buf.length = MAX_RECORDS_IN_BATCH := by
    rw [show (ProducerState.mk "orders" false "0"
        (List.replicate 500 (Datum.mk none (some "k") (List.replicate 10 0)))
        5500).record_buf =
        List.replicate 500 (Datum.mk none (some "k") (List.replicate 10 0)) from rfl,
      List.length_replicate]
    rfl
  rw [loop_count_flush_step (fun b : List Datum => b) none none (fun _ => "k")
    (List.replicate 10 0) [] (1 + 500) [] []
    (ProducerState.mk "orders" false "0"
      (List.replicate 500 (Datum.mk none (some "k") (List.replicate 10 0))) 5500)
    (Nat.not_lt.mp hr10) hc
    (by rw [hdn (1 + 500), hsd]; decide)]
  rw [hdn (1 + 500), hsd]
  rw [show put_records_loop (okEp (fun b : List Datum => b)) none none (fun _ => "k")
      [] (1 + 500 + 1)
      ([] ++ [some ((fun b : List Datum => b)
        (ProducerState.mk "orders" false "0"
          (List.replicate 500 (Datum.mk none (some "k") (List.replicate 10 0)))
          5500).record_buf)])
      ([] ++ [(ProducerState.mk "orders" false "0"
          (List.replicate 500 (Datum.mk none (some "k") (List.replicate 10 0)))
          5500).record_buf])
      { ProducerState.mk "orders" false "0"
          (List.replicate 500 (Datum.mk none (some "k") (List.replicate 10 0))) 5500 with
        record_buf := [Datum.mk none (some "k") (List.replicate 10 0)],
        buf_size := 11 } =
      (Except.ok ([] ++ [some ((fun b : List Datum => b)
        (ProducerState.mk "orders" false "0"
          (List.replicate 500 (Datum.mk none (some "k") (List.replicate 10 0)))
          5500).record_buf)]),
       { ProducerState.mk "orders" false "0"
           (List.replicate 500 (Datum.mk none (some "k") (List.replicate 10 0))) 5500 with
         record_buf := [Datum.mk none (some "k") (List.replicate 10 0)],
         buf_size := 11 },
       [] ++ [(ProducerState.mk "orders" false "0"
          (List.replicate 500 (Datum.mk none (some "k") (List.replicate 10 0)))
          5500).record_buf]) from rfl]
  rfl

end AsyncKinesisProducer

end AsyncKinesisClient

namespace AsyncKinesisClient

namespace AsyncKinesisProducer

/-- **C6** (amended): the count-triggered flush of `put_records` fires when
the buffer holds exactly `MAX_RECORDS_IN_BATCH` entries at the start of an
item's iteration, before that item is added — the flush response covering
the old 500-entry buffer is emitted and the new item starts a fresh buffer;
it never fires merely because an add brought the count to 500: pushing 500
ten-byte records into a fresh unordered producer yields no flush response
and leaves all 500 resting in the buffer, while pushing 501 yields exactly
one flush response covering the first 500 records and leaves exactly one
record buffered.  (The original "flushes only when the buffer holds 500
entries" is refuted by the batch-size-triggered flush, see the
counterexample.) -/
theorem claim_C6_count_flush_at_500_before_add {R : Type} (f : List Datum → R)
    (pk ehk : Option String) (kg : Nat → String) (r : Bytes) (s : ProducerState)
    (hr : _sizeof r ≤ MAX_RECORD_SIZE)
    (hc : s.record_buf.length = MAX_RECORDS_IN_BATCH)
    (hsz : _sizeof_datum (mkDatum ehk pk (kg 1) r) ≤ MAX_BATCH_SIZE) :
    put_records (okEp f) pk ehk kg [r] s =
      (Except.ok [some (f s.record_buf)],
       { s with record_buf := [mkDatum ehk pk (kg 1) r],
                buf_size := _sizeof_datum (mkDatum ehk pk (kg 1) r) },
       [s.record_buf]) ∧
    put_records (okEp (fun b : List Datum => b)) none none (fun _ => "k")
        (List.replicate 501 (List.replicate 10 0)) (init "orders" false) =
      (Except.ok [some (List.replicate 500 (Datum.mk none (some "k") (List.replicate 10 0)))],
       ProducerState.mk "orders" false "0"
         [Datum.mk none (some "k") (List.replicate 10 0)] 11,
       [List.replicate 500 (Datum.mk none (some "k") (List.replicate 10 0))]) ∧
    put_records (okEp (fun b : List Datum => b)) none none (fun _ => "k")
        (List.replicate 500 (List.replicate 10 0)) (init "orders" false) =
      (Except.ok [],
       ProducerState.mk "orders" false "0"
         (List.replicate 500 (Datum.mk none (some "k") (List.replicate 10 0))) 5500,
       []) := by
  refine ⟨?_, put_records_501_tenbyte, put_records_500_tenbyte⟩
  unfold put_records
  rw [loop_count_flush_step f pk ehk kg r [] 1 [] [] s hr hc hsz]
  rfl

/-- **C6** as stated ("flushes when and only when the buffer holds exactly
500 entries at the start of an item's iteration") is false on the code: a
single 200 KiB record pushed while a 3-entry buffer stands at 5138022 bytes
triggers a batch-size flush, producing a flush response although the buffer
held 3 ≠ 500 entries at the start of the iteration. -/
theorem claim_C6_counterexample :
    (put_records (okEp (fun b : List Datum => b)) none none (fun _ => "k")
        [List.replicate 204799 0]
        (ProducerState.mk "s" false "0"
          (List.replicate 3 (Datum.mk none (some "p") (List.replicate 1712673 0)))
          5138022)).1 =
      Except.ok [some (List.replicate 3 (Datum.mk none (some "p") (List.replicate 1712673 0)))] ∧
    (ProducerState.mk "s" false "0"
        (List.replicate 3 (Datum.mk none (some "p") (List.replicate 1712673 0)))
        5138022).record_buf.length ≠ MAX_RECORDS_IN_BATCH := by
  have h2 : (ProducerState.mk "s" false "0"
      (List.replicate 3 (Datum.mk none (some "p") (List.replicate 1712673 0)))
      5138022).record_buf.length ≠ MAX_RECORDS_IN_BATCH := by
    rw [show (ProducerState.mk "s" false "0"
      (List.replicate 3 (Datum.mk none (some "p") (List.replicate 1712673 0)))
      5138022).record_buf.length =
      (List.replicate 3 (Datum.mk none (some "p") (List.replicate 1712673 0))).length from rfl,
      List.length_replicate]
    decide
  refine ⟨?_, h2⟩
  have h1 : _sizeof (List.replicate 204799 0) ≤ MAX_RECORD_SIZE := by
    rw [show _sizeof (List.replicate 204799 (0 : Nat)) =
      (List.replicate 204799 (0 : Nat)).length from rfl, List.length_replicate]
    decide
  have h3 : (ProducerState.mk "s" false "0"
      (List.replicate 3 (Datum.mk none (some "p") (List.replicate 1712673 0)))
      5138022).record_buf ≠ [] := by
    intro h
    have hq := congrArg List.length h
    rw [show (ProducerState.mk "s" false "0"
        (List.replicate 3 (Datum.mk none (some "p") (List.replicate 1712673 0)))
        5138022).record_buf =
        List.replicate 3 (Datum.mk none (some "p") (List.replicate 1712673 0)) from rfl,
      List.length_replicate, List.length_nil] at hq
    exact absurd hq (by decide)
  have h4 : MAX_BATCH_SIZE < (ProducerState.mk "s" false "0"
      (List.replicate 3 (Datum.mk none (some "p") (List.replicate 1712673 0)))
      5138022).buf_size +
      _sizeof_datum (mkDatum none none ((fun _ : Nat => "k") 1) (List.replicate 204799 0)) := by
    rw [show ((fun _ : Nat => "k") 1) = "k" from rfl, mkDatum_none_none, sizeof_datum_pk,
      List.length_replicate,
      show (ProducerState.mk "s" false "0"
        (List.replicate 3 (Datum.mk none (some "p") (List.replicate 1712673 0)))
        5138022).buf_size = 5138022 from rfl]
    decide
  have hstep := loop_size_flush_step (fun b : List Datum => b) none none (fun _ => "k")
    (List.replicate 204799 0) [] 1 [] []
    (ProducerState.mk "s" false "0"
      (List.replicate 3 (Datum.mk none (some "p") (List.replicate 1712673 0)))
      5138022) h1 h2 h3 h4
  unfold put_records
  rw [hstep]
  rfl

end AsyncKinesisProducer

end AsyncKinesisClient

namespace AsyncKinesisClient

namespace AsyncKinesisProducer

theorem claim_C6_count_flush_at_500_before_add_witness :
    _sizeof [5] ≤ MAX_RECORD_SIZE ∧
    (ProducerState.mk "s" true "0"
        (List.replicate 500 (Datum.mk none (some "k") [0])) 1000).record_buf.length =
      MAX_RECORDS_IN_BATCH ∧
    _sizeof_datum (mkDatum none none ((fun _ : Nat => "q") 1) [5]) ≤ MAX_BATCH_SIZE ∧
    (put_records (okEp (fun b : List Datum => b)) none none (fun _ => "q") [[5]]
        (ProducerState.mk "s" true "0"
          (List.replicate 500 (Datum.mk none (some "k") [0])) 1000) =
      (Except.ok [some (List.replicate 500 (Datum.mk none (some "k") [0]))],
       ProducerState.mk "s" true "0" [Datum.mk none (some "q") [5]] 2,
       [List.replicate 500 (Datum.mk none (some "k") [0])]) ∧
     put_records (okEp (fun b : List Datum => b)) none none (fun _ => "k")
        (List.replicate 501 (List.replicate 10 0)) (init "orders" false) =
      (Except.ok [some (List.replicate 500 (Datum.mk none (some "k") (List.replicate 10 0)))],
       ProducerState.mk "orders" false "0"
         [Datum.mk none (some "k") (List.replicate 10 0)] 11,
       [List.replicate 500 (Datum.mk none (some "k") (List.replicate 10 0))]) ∧
     put_records (okEp (fun b : List Datum => b)) none none (fun _ => "k")
        (List.replicate 500 (List.replicate 10 0)) (init "orders" false) =
      (Except.ok [],
       ProducerState.mk "orders" false "0"
         (List.replicate 500 (Datum.mk none (some "k") (List.replicate 10 0))) 5500,
       [])) := by
  have hr : _sizeof [5] ≤ MAX_RECORD_SIZE := by decide
  have hc : (ProducerState.mk "s" true "0"
      (List.replicate 500 (Datum.mk none (some "k") [0])) 1000).record_buf.length =
      MAX_RECORDS_IN_BATCH := by
    rw [show (ProducerState.mk "s" true "0"
        (List.replicate 500 (Datum.mk none (some "k") [0])) 1000).record_buf =
        List.replicate 500 (Datum.mk none (some "k") [0]) from rfl,
      List.length_replicate]
    rfl
  have hsz : _sizeof_datum (mkDatum none none ((fun _ : Nat => "q") 1) [5]) ≤
      MAX_BATCH_SIZE := by
    rw [show ((fun _ : Nat => "q") 1) = "q" from rfl, mkDatum_none_none, sizeof_datum_pk]
    decide
  exact ⟨hr, hc, hsz,
    claim_C6_count_flush_at_500_before_add (fun b : List Datum => b) none none
      (fun _ => "q") [5]
      (ProducerState.mk "s" true "0"
        (List.replicate 500 (Datum.mk none (some "k") [0])) 1000) hr hc hsz⟩

end AsyncKinesisProducer

end AsyncKinesisClient

namespace AsyncKinesisClient

namespace AsyncKinesisProducer

/-- **C4** as stated is false in its last clause: a single-record call whose
record exceeds 1 MiB does change the buffer when the buffer held exactly 500
entries before the call — the count-triggered flush empties it before the
size check raises. -/
theorem claim_C4_counterexample :
    ((put_records (okEp (fun b : List Datum => b)) none none (fun _ => "k")
        [List.replicate 1048577 0]
        (ProducerState.mk "s" true "0"
          (List.replicate 500 (Datum.mk none (some "k") [0])) 1000)).2.1).record_buf = [] ∧
    (ProducerState.mk "s" true "0"
        (List.replicate 500 (Datum.mk none (some "k") [0])) 1000).record_buf ≠ [] := by
  constructor
  · have hbad : MAX_RECORD_SIZE < _sizeof (List.replicate 1048577 0) := by
      rw [show _sizeof (List.replicate 1048577 (0 : Nat)) =
        (List.replicate 1048577 (0 : Nat)).length from rfl, List.length_replicate]
      decide
    have hc : (ProducerState.mk "s" true "0"
        (List.replicate 500 (Datum.mk none (some "k") [0])) 1000).record_buf.length =
        MAX_RECORDS_IN_BATCH := by
      rw [show (ProducerState.mk "s" true "0"
          (List.replicate 500 (Datum.mk none (some "k") [0])) 1000).record_buf =
          List.replicate 500 (Datum.mk none (some "k") [0]) from rfl,
        List.length_replicate]
      rfl
    have hstep := loop_oversized_head (fun b : List Datum => b) none none (fun _ => "k")
      (List.replicate 1048577 0) [] 1 [] []
      (ProducerState.mk "s" true "0"
        (List.replicate 500 (Datum.mk none (some "k") [0])) 1000) hbad
    unfold put_records
    rw [hstep]
    rw [show countFlushState (ProducerState.mk "s" true "0"
        (List.replicate 500 (Datum.mk none (some "k") [0])) 1000) =
        clearBuf (ProducerState.mk "s" true "0"
          (List.replicate 500 (Datum.mk none (some "k") [0])) 1000) from by
      unfold countFlushState
      rw [if_pos hc]]
    rfl
  · intro h
    have hq := congrArg List.length h
    rw [show (ProducerState.mk "s" true "0"
        (List.replicate 500 (Datum.mk none (some "k") [0])) 1000).record_buf =
        List.replicate 500 (Datum.mk none (some "k") [0]) from rfl,
      List.length_replicate, List.length_nil] at hq
    exact absurd hq (by decide)

/-- **C4** (amended): if every record before position N is within the 1 MiB
limit and record N exceeds it, `put_records` raises `ValueError` carrying
the 1-based index N, the limit and the actual size; the offending record and
every later one are never buffered — the final state is exactly the state
reached after the preceding records followed by the count-check flush of the
offending iteration; in particular a single-record call leaves the state
unchanged provided the buffer did not already hold exactly 500 entries
(when it did, the count-triggered flush has emptied it; see C5). -/
theorem claim_C4_oversized_record_error {R : Type} (f : List Datum → R)
    (pk ehk : Option String) (kg : Nat → String)
    (pre : List Bytes) (bad : Bytes) (post : List Bytes) (s : ProducerState)
    (hpre : ∀ r ∈ pre, _sizeof r ≤ MAX_RECORD_SIZE)
    (hbad : MAX_RECORD_SIZE < _sizeof bad) :
    ∃ resp1 s1 tr1,
      put_records_loop (okEp f) pk ehk kg pre 1 [] [] s = (Except.ok resp1, s1, tr1) ∧
      put_records (okEp f) pk ehk kg (pre ++ bad :: post) s =
        (Except.error (PutError.valueError (pre.length + 1) MAX_RECORD_SIZE (_sizeof bad) bad),
         countFlushState s1, tr1 ++ countFlushTrace s1) ∧
      (pre = [] → s.record_buf.length ≠ MAX_RECORDS_IN_BATCH →
        put_records (okEp f) pk ehk kg [bad] s =
          (Except.error (PutError.valueError 1 MAX_RECORD_SIZE (_sizeof bad) bad), s, [])) := by
  have hpre' : ∀ r ∈ pre, ¬ MAX_RECORD_SIZE < _sizeof r :=
    fun r h => Nat.not_lt.mpr (hpre r h)
  obtain ⟨resp1, s1, tr1, h1, h2⟩ :=
    loop_ok_append f pk ehk kg pre (bad :: post) 1 [] [] s hpre'
  refine ⟨resp1, s1, tr1, h1, ?_, ?_⟩
  · unfold put_records
    rw [h2, loop_oversized_head f pk ehk kg bad post (1 + pre.length) resp1 tr1 s1 hbad,
      Nat.add_comm 1 pre.length]
  · intro hnil hc
    unfold put_records
    rw [loop_oversized_head f pk ehk kg bad [] 1 [] [] s hbad]
    unfold countFlushState countFlushTrace
    rw [if_neg hc, if_neg hc]
    rfl

theorem claim_C4_oversized_record_error_witness :
    (∀ r ∈ [[1]], _sizeof r ≤ MAX_RECORD_SIZE) ∧
    MAX_RECORD_SIZE < _sizeof (List.replicate 1048577 0) ∧
    (∃ resp1 s1 tr1,
      put_records_loop (okEp (fun b : List Datum => b)) none none (fun _ => "k")
          [[1]] 1 [] [] (init "s" true) = (Except.ok resp1, s1, tr1) ∧
      put_records (okEp (fun b : List Datum => b)) none none (fun _ => "k")
          ([[1]] ++ List.replicate 1048577 0 :: [[2]]) (init "s" true) =
        (Except.error (PutError.valueError ((1 : Nat) + 1) MAX_RECORD_SIZE
            (_sizeof (List.replicate 1048577 0)) (List.replicate 1048577 0)),
         countFlushState s1, tr1 ++ countFlushTrace s1) ∧
      ([[1]] = ([] : List Bytes) → (init "s" true).record_buf.length ≠ MAX_RECORDS_IN_BATCH →
        put_records (okEp (fun b : List Datum => b)) none none (fun _ => "k")
            [List.replicate 1048577 0] (init "s" true) =
          (Except.error (PutError.valueError 1 MAX_RECORD_SIZE
              (_sizeof (List.replicate 1048577 0)) (List.replicate 1048577 0)),
           init "s" true, []))) := by
  have hpre : ∀ r ∈ [[1]], _sizeof r ≤ MAX_RECORD_SIZE := by decide
  have hbad : MAX_RECORD_SIZE < _sizeof (List.replicate 1048577 0) := by
    rw [show _sizeof (List.replicate 1048577 (0 : Nat)) =
      (List.replicate 1048577 (0 : Nat)).length from rfl, List.length_replicate]
    decide
  refine ⟨hpre, hbad, ?_⟩
  have h := claim_C4_oversized_record_error (fun b : List Datum => b) none none
    (fun _ => "k") [[1]] (List.replicate 1048577 0) [[2]] (init "s" true) hpre hbad
  exact h

end AsyncKinesisProducer

end AsyncKinesisClient

namespace AsyncKinesisClient

namespace AsyncKinesisProducer

/-- **C1**: For every series of `put_records` calls whose records are each at
most 1 MiB, assuming every endpoint call succeeds, the series followed by a
final `flush()` submits every record to the endpoint exactly once, in the
original input order, across the sequence of batch endpoint calls — the
concatenation of the submitted batches' payloads equals the concatenation of
the inputs, and the final buffer is empty. -/
theorem claim_C1_exactly_once_in_order {R : Type} (f : List Datum → R)
    (calls : List PutManyCall) (name : String) (ordered : Bool)
    (h : ∀ c ∈ calls, ∀ r ∈ c.records, _sizeof r ≤ MAX_RECORD_SIZE) :
    traceData (run_and_flush f calls (init name ordered)).2 =
      (calls.map PutManyCall.records).flatten ∧
    (run_and_flush f calls (init name ordered)).1.record_buf = [] := by
  have h' : ∀ c ∈ calls, ∀ r ∈ c.records, ¬ MAX_RECORD_SIZE < _sizeof r :=
    fun c hc r hr => Nat.not_lt.mpr (h c hc r hr)
  have hres := run_and_flush_traceData f calls (init name ordered) h'
  rwa [show bufData (init name ordered) = [] from rfl, List.nil_append] at hres

theorem claim_C1_exactly_once_in_order_witness :
    (∀ c ∈ [PutManyCall.mk [[1, 2], [3]] none none (fun _ => "k"),
            PutManyCall.mk [[4]] none none (fun _ => "p")],
       ∀ r ∈ c.records, _sizeof r ≤ MAX_RECORD_SIZE) ∧
    traceData (run_and_flush (fun b : List Datum => b)
        [PutManyCall.mk [[1, 2], [3]] none none (fun _ => "k"),
         PutManyCall.mk [[4]] none none (fun _ => "p")] (init "s" true)).2 =
      ([PutManyCall.mk [[1, 2], [3]] none none (fun _ => "k"),
        PutManyCall.mk [[4]] none none (fun _ => "p")].map PutManyCall.records).flatten ∧
    (run_and_flush (fun b : List Datum => b)
        [PutManyCall.mk [[1, 2], [3]] none none (fun _ => "k"),
         PutManyCall.mk [[4]] none none (fun _ => "p")] (init "s" true)).1.record_buf = [] := by
  have h : ∀ c ∈ [PutManyCall.mk [[1, 2], [3]] none none (fun _ => "k"),
      PutManyCall.mk [[4]] none none (fun _ => "p")],
      ∀ r ∈ c.records, _sizeof r ≤ MAX_RECORD_SIZE := by decide
  obtain ⟨h1, h2⟩ := claim_C1_exactly_once_in_order (fun b : List Datum => b)
    [PutManyCall.mk [[1, 2], [3]] none none (fun _ => "k"),
     PutManyCall.mk [[4]] none none (fun _ => "p")] "s" true h
  exact ⟨h, h1, h2⟩

/-- **C8**: with `ordered=true`, across any sequence of consecutive
successful `put_record` calls, the Nth request carries as its
`SequenceNumberForOrdering` the sequence number returned by the (N-1)th
response, the first request carrying the initial sentinel `seq`; with
`ordered=false` no sequencing token is sent on any request and the stored
token is never updated. -/
theorem claim_C8_ordering_token_chain (g : PutRecordReq → PutRecordResp)
    (calls : List PutOneCall) (s : ProducerState) :
    (run_put_record_calls g calls s).1.map PutRecordReq.SequenceNumberForOrdering =
      (if s.ordered then
        (some s.seq :: (run_put_record_calls g calls s).2.1.map
          (fun q => some q.SequenceNumber)).dropLast
       else List.replicate calls.length none) ∧
    (run_put_record_calls g calls s).2.2.seq =
      (if s.ordered then
        ((run_put_record_calls g calls s).2.1.map PutRecordResp.SequenceNumber).getLastD s.seq
       else s.seq) :=
  run_chain_tokens g calls s

end AsyncKinesisProducer

end AsyncKinesisClient

namespace AsyncKinesisClient

namespace AsyncKinesisProducer

theorem sumCountInv_clearBuf (s : ProducerState) : sumCountInv (clearBuf s) := by
  simp [sumCountInv, clearBuf, MAX_RECORDS_IN_BATCH]

theorem sumCountInv_of_frame (s s' : ProducerState)
    (hb : s'.record_buf = s.record_buf) (hz : s'.buf_size = s.buf_size)
    (h : sumCountInv s) : sumCountInv s' := by
  unfold sumCountInv at *
  rw [hb, hz]
  exact h

theorem sumCountInv_addDatum (s : ProducerState) (d : Datum)
    (h : sumCountInv s) (hl : s.record_buf.length < MAX_RECORDS_IN_BATCH) :
    sumCountInv (addDatum s d) := by
  obtain ⟨h1, h2⟩ := h
  constructor
  · simp [addDatum, h1]
  · simp only [addDatum, List.length_append, List.length_cons, List.length_nil]
    omega

theorem sumCountInv_countFlushState (s : ProducerState) (h : sumCountInv s) :
    sumCountInv (countFlushState s) := by
  unfold countFlushState
  split
  · exact sumCountInv_clearBuf s
  · exact h

theorem flush_sumCountInv {E R : Type} (ep : List Datum → Except E R)
    (s : ProducerState) (h : sumCountInv s) : sumCountInv (flush ep s).2.1 := by
  unfold flush
  by_cases h0 : s.record_buf.length = 0
  · simpa [h0] using h
  · rcases hf : ep s.record_buf with e | r
    · simpa [h0, hf] using h
    · simpa [h0, hf] using sumCountInv_clearBuf s

theorem sumCountInv_step (s : ProducerState) (d : Datum) (hs : sumCountInv s) :
    sumCountInv (addDatum (sizeFlushState (_sizeof_datum d) (countFlushState s)) d) := by
  have hcf : sumCountInv (countFlushState s) := sumCountInv_countFlushState s hs
  have hlen : (countFlushState s).record_buf.length < MAX_RECORDS_IN_BATCH := by
    unfold countFlushState
    split
    · simp [clearBuf, MAX_RECORDS_IN_BATCH]
    · rename_i hne
      exact Nat.lt_of_le_of_ne hs.2 hne
  generalize hq : countFlushState s = q at hcf hlen
  unfold sizeFlushState
  split
  · split
    · exact sumCountInv_addDatum q d hcf hlen
    · exact sumCountInv_addDatum (clearBuf q) d (sumCountInv_clearBuf q)
        (by rw [show (clearBuf q).record_buf.length = 0 from rfl]
            simp [MAX_RECORDS_IN_BATCH])
  · exact sumCountInv_addDatum q d hcf hlen

theorem loop_sumCountInv {R : Type} (f : List Datum → R)
    (pk ehk : Option String) (kg : Nat → String) :
    ∀ (records : List Bytes) (n : Nat) (resp : List (Option R))
      (tr : List (List Datum)) (s : ProducerState),
      sumCountInv s →
      sumCountInv (put_records_loop (okEp f) pk ehk kg records n resp tr s).2.1
  | [], n, resp, tr, s, hs => by simpa [put_records_loop] using hs
  | x :: rest, n, resp, tr, s, hs => by
    by_cases hr : MAX_RECORD_SIZE < _sizeof x
    · rw [loop_oversized_head f pk ehk kg x rest n resp tr s hr]
      exact sumCountInv_countFlushState s hs
    · rw [loop_cons_ok f pk ehk kg x rest n resp tr s hr]
      exact loop_sumCountInv f pk ehk kg rest (n + 1) _ _ _ (sumCountInv_step s _ hs)

/-- **C2** as stated is false in its 5 MiB clause, and only in that clause:
`put_records` with a single 1-byte record and a caller-supplied partition key
of 5242880 characters returns normally (result `[none]`, from a
size-triggered flush of the still-empty buffer) and leaves
`buf_size = 5242881 > MAX_BATCH_SIZE`, because no limit is enforced on key
sizes — while the sum and entry-count clauses still hold at that violating
state. -/
theorem claim_C2_counterexample :
    (put_records (okEp (fun b : List Datum => b))
        (some (String.mk (List.replicate 5242880 'a'))) none (fun _ => "k")
        [[0]] (init "s" true)).1 = Except.ok [none] ∧
    MAX_BATCH_SIZE <
      ((put_records (okEp (fun b : List Datum => b))
          (some (String.mk (List.replicate 5242880 'a'))) none (fun _ => "k")
          [[0]] (init "s" true)).2.1).buf_size ∧
    sumCountInv ((put_records (okEp (fun b : List Datum => b))
        (some (String.mk (List.replicate 5242880 'a'))) none (fun _ => "k")
        [[0]] (init "s" true)).2.1) := by
  have hr : ¬ MAX_RECORD_SIZE < _sizeof [0] := by decide
  have hK : (String.mk (List.replicate 5242880 'a')).length = 5242880 := by
    rw [show (String.mk (List.replicate 5242880 'a')).length =
      (List.replicate 5242880 'a').length from rfl, List.length_replicate]
  have hmk : mkDatum none (some (String.mk (List.replicate 5242880 'a')))
      ((fun _ : Nat => "k") 1) [0] =
      Datum.mk none (some (String.mk (List.replicate 5242880 'a'))) [0] := rfl
  have hsd : _sizeof_datum (Datum.mk none (some (String.mk (List.replicate 5242880 'a'))) [0]) =
      5242881 := by
    rw [sizeof_datum_pk, hK]
    decide
  have hc : ¬ (init "s" true).record_buf.length = MAX_RECORDS_IN_BATCH := by
    rw [show (init "s" true).record_buf.length = 0 from rfl]
    decide
  have hfull : put_records (okEp (fun b : List Datum => b))
      (some (String.mk (List.replicate 5242880 'a'))) none (fun _ => "k")
      [[0]] (init "s" true) =
      (Except.ok [none],
       { init "s" true with
         record_buf := [Datum.mk none (some (String.mk (List.replicate 5242880 'a'))) [0]],
         buf_size := (init "s" true).buf_size + 5242881 },
       []) := by
    unfold put_records
    rw [loop_cons_ok (fun b : List Datum => b)
      (some (String.mk (List.replicate 5242880 'a'))) none
      (fun _ => "k") [0] [] 1 [] [] (init "s" true) hr]
    rw [hmk, hsd]
    rw [show countFlushState (init "s" true) = init "s" true from by
      unfold countFlushState
      rw [if_neg hc]]
    rw [show countFlushResp (fun b : List Datum => b) (init "s" true) =
        ([] : List (Option (List Datum))) from by
      unfold countFlushResp
      rw [if_neg hc]]
    rw [show countFlushTrace (init "s" true) = [] from by
      unfold countFlushTrace
      rw [if_neg hc]]
    have hsz : MAX_BATCH_SIZE < (init "s" true).buf_size + 5242881 := by
      rw [show (init "s" true).buf_size = 0 from rfl]
      decide
    have he : (init "s" true).record_buf.length = 0 := rfl
    unfold sizeFlushResp sizeFlushTrace sizeFlushState
    rw [if_pos hsz, if_pos hsz, if_pos hsz, if_pos he, if_pos he, if_pos he]
    unfold addDatum
    rw [hsd]
    rfl
  refine ⟨?_, ?_, ?_⟩
  · rw [hfull]
  · rw [hfull]
    show MAX_BATCH_SIZE < (init "s" true).buf_size + 5242881
    rw [show (init "s" true).buf_size = 0 from rfl]
    decide
  · unfold put_records
    exact loop_sumCountInv (fun b : List Datum => b)
      (some (String.mk (List.replicate 5242880 'a'))) none (fun _ => "k")
      [[0]] 1 [] [] (init "s" true) ⟨rfl, by decide⟩

end AsyncKinesisProducer

end AsyncKinesisClient

namespace AsyncKinesisClient

namespace AsyncKinesisProducer

/-- **C2** (amended): the fresh producer satisfies the state invariant
(`buf_size` equals the sum of the buffered entries' sizes, at most 500
entries, `buf_size ≤ 5 MiB`).  The sum and entry-count clauses are preserved
by every public operation that returns, with no assumption on datum sizes:
by `put_record` and `flush` under any endpoint outcome, and by `put_records`
under a succeeding endpoint for arbitrary records and keys.  The full
invariant including the 5 MiB bound is preserved likewise, except that for
`put_records` it additionally requires each datum built during the call
(record plus its key) to be at most `MAX_BATCH_SIZE` — without that proviso
`buf_size` can exceed 5 MiB (see the counterexample). -/
theorem claim_C2_state_invariants {E R : Type}
    (ep1 : PutRecordReq → Except E PutRecordResp) (f : List Datum → R)
    (ep2 : List Datum → Except E R)
    (record : Bytes) (pk1 ehk1 : Option String) (dk1 dk2 : String)
    (pk ehk pk2 ehk2 : Option String) (kg kg2 : Nat → String)
    (records records2 : List Bytes)
    (name : String) (ordered : Bool) (s : ProducerState)
    (hsc : sumCountInv s) (hg : goodState s)
    (hd : ∀ m, ∀ r ∈ records, _sizeof_datum (mkDatum ehk pk (kg m) r) ≤ MAX_BATCH_SIZE) :
    goodState (init name ordered) ∧
    sumCountInv (put_record ep1 record pk1 ehk1 dk1 dk2 s).2.1 ∧
    sumCountInv (flush ep2 s).2.1 ∧
    sumCountInv (put_records (okEp f) pk2 ehk2 kg2 records2 s).2.1 ∧
    goodState (put_record ep1 record pk1 ehk1 dk1 dk2 s).2.1 ∧
    goodState (flush ep2 s).2.1 ∧
    goodState (put_records (okEp f) pk ehk kg records s).2.1 := by
  refine ⟨⟨rfl,
    by rw [show (init name ordered).record_buf.length = 0 from rfl]; decide,
    by rw [show (init name ordered).buf_size = 0 from rfl]; decide⟩,
    ?_, flush_sumCountInv ep2 s hsc, ?_, ?_, flush_goodState ep2 s hg, ?_⟩
  · obtain ⟨hb, hz⟩ := put_record_frame ep1 record pk1 ehk1 dk1 dk2 s
    exact sumCountInv_of_frame s _ hb hz hsc
  · unfold put_records
    exact loop_sumCountInv f pk2 ehk2 kg2 records2 1 [] [] s hsc
  · obtain ⟨hb, hz⟩ := put_record_frame ep1 record pk1 ehk1 dk1 dk2 s
    exact goodState_of_frame s _ hb hz hg
  · unfold put_records
    exact loop_goodState f pk ehk kg records 1 [] [] s hd hg

theorem claim_C2_state_invariants_witness :
    sumCountInv (init "t" false) ∧
    goodState (init "t" false) ∧
    (∀ m, ∀ r ∈ [[1], [2]],
      _sizeof_datum (mkDatum none none ((fun _ : Nat => "k") m) r) ≤ MAX_BATCH_SIZE) ∧
    (goodState (init "s" true) ∧
     sumCountInv (put_record (fun _ => (Except.ok (PutRecordResp.mk "7") :
         Except String PutRecordResp)) [1] none none "a" "b" (init "t" false)).2.1 ∧
     sumCountInv (flush (fun _ => (Except.error "x" :
         Except String (List Datum))) (init "t" false)).2.1 ∧
     sumCountInv (put_records (okEp (fun b : List Datum => b)) none none (fun _ => "w")
       [[9]] (init "t" false)).2.1 ∧
     goodState (put_record (fun _ => (Except.ok (PutRecordResp.mk "7") :
         Except String PutRecordResp)) [1] none none "a" "b" (init "t" false)).2.1 ∧
     goodState (flush (fun _ => (Except.error "x" :
         Except String (List Datum))) (init "t" false)).2.1 ∧
     goodState (put_records (okEp (fun b : List Datum => b)) none none (fun _ => "k")
       [[1], [2]] (init "t" false)).2.1) := by
  have hsc : sumCountInv (init "t" false) := ⟨rfl, by decide⟩
  have hg : goodState (init "t" false) := ⟨rfl, by decide, by decide⟩
  have hd : ∀ m, ∀ r ∈ [[1], [2]],
      _sizeof_datum (mkDatum none none ((fun _ : Nat => "k") m) r) ≤ MAX_BATCH_SIZE := by
    intro m r hr
    rw [show ((fun _ : Nat => "k") m) = "k" from rfl, mkDatum_none_none, sizeof_datum_pk]
    cases hr with
    | head => decide
    | tail _ h =>
      cases h with
      | head => decide
      | tail _ h2 => cases h2
  exact ⟨hsc, hg, hd,
    claim_C2_state_invariants
      (fun _ => (Except.ok (PutRecordResp.mk "7") : Except String PutRecordResp))
      (fun b : List Datum => b)
      (fun _ => (Except.error "x" : Except String (List Datum)))
      [1] none none "a" "b" none none none none (fun _ => "k") (fun _ => "w")
      [[1], [2]] [[9]] "s" true
      (init "t" false) hsc hg hd⟩

end AsyncKinesisProducer

end AsyncKinesisClient
